import Mathlib

/-!
Shallow embedding of `yew-ethereum-provider`: the `UseEthereumHandle` wallet
session handle (src/src/hooks/use_ethereum.rs) and the `AccountLabel` UI
component (src/src/components/account_label.rs).

Modelling conventions:
* `H160` addresses and `U256` chain ids are natural numbers; where 256-bit
  or 64-bit overflow matters the bound `2 ^ 256` / `2 ^ 64` appears
  explicitly.
* Rust `Result` is `Except`, `Option` is `Option`; a Rust panic is the
  `none` / `Except.error` branch of the modelled function.
* The yew `UseStateHandle` cells are plain fields of the state record;
  `set` is a functional record update.
* The EIP-1193 transport is modelled by an oracle
  `rpc : RpcCall → Except String Json` giving the wallet's response to each
  request; functions that issue requests also return the list of requests
  they issued, in order.
* Rust strings handled character by character are `List Char`.
-/

deriving instance DecidableEq for Except

/-- The host-injected EIP-1193 provider object
(`web3::transports::eip_1193::Provider`). Its internals are opaque to this
repository; only its identity matters here. -/
structure Provider where
  id : Nat
deriving DecidableEq, Repr

/-- `Chain` is declared in this crate outside `src/src`; the hook code uses
exactly its `chain_id` and `chain_name` fields
(src/src/hooks/use_ethereum.rs line 187, switch_network_button.rs line 39),
so it is modelled with those fields plus opaque remaining serialized data. -/
structure Chain where
  chain_id : String
  chain_name : String
  rest : String
deriving DecidableEq, Repr

/-- `ERC20Asset` is declared in this crate outside `src/src`; the hook code
only serializes it (src/src/hooks/use_ethereum.rs line 227), so it is
modelled as opaque serialized data. -/
structure ERC20Asset where
  data : String
deriving DecidableEq, Repr

/-- The wallet session handle, from src/src/hooks/use_ethereum.rs lines
12-18: a provider object plus three yew state cells. -/
structure UseEthereumHandle where
  provider : Provider
  connected : Bool
  accounts : Option (List Nat)
  chain_id : Option Nat
deriving DecidableEq, Repr

/-- Kind of a Rust field type as it appears in the struct declaration. -/
inductive FieldTy where
  | providerTy
  | boolTy
  | optionTy
deriving DecidableEq, Repr

/-- The field list of `UseEthereumHandle` exactly as declared in
src/src/hooks/use_ethereum.rs lines 12-18: `provider: Provider`,
`connected: UseStateHandle<bool>`,
`accounts: UseStateHandle<Option<Vec<H160>>>`,
`chain_id: UseStateHandle<Option<U256>>`. -/
def useEthereumHandleFields : List (String × FieldTy) :=
  [("provider", FieldTy.providerTy),
   ("connected", FieldTy.boolTy),
   ("accounts", FieldTy.optionTy),
   ("chain_id", FieldTy.optionTy)]

/-- Whether a field type is a boolean or optional state cell. -/
def FieldTy.isBoolOrOptional : FieldTy → Bool
  | FieldTy.providerTy => false
  | FieldTy.boolTy => true
  | FieldTy.optionTy => true

/-- The decimal digit characters of the `uint` crate's `Display` for `U256`
(`chainid.to_string()` at src/src/hooks/use_ethereum.rs line 154): least
significant digit last, no leading zeros, `"0"` for zero. -/
def decDigitChar (d : Nat) : Char := Char.ofNat (48 + d)

/-- `U256::to_string` (Display of the `uint` crate): decimal representation,
most significant digit first, `"0"` for zero. -/
def u256_to_string (n : Nat) : List Char :=
  if n = 0 then [decDigitChar 0]
  else ((Nat.digits 10 n).map decDigitChar).reverse

/-- Loop body of the `uint` crate's `U256::from_dec_str` (called at
src/src/hooks/use_ethereum.rs line 49): each byte is wrapping-subtracted
from the byte of the character `0`; a result above `9` is an invalid
character; the accumulator is multiplied by ten and the digit added, each
step checked for 256-bit overflow. -/
def from_dec_str_aux (acc : Nat) : List Char → Except String Nat
  | [] => Except.ok acc
  | c :: cs =>
    let b := (c.toNat + 256 - 48) % 256
    if 9 < b then Except.error "InvalidCharacter"
    else
      let r := acc * 10
      if 2 ^ 256 ≤ r then Except.error "InvalidLength"
      else
        let r2 := r + b
        if 2 ^ 256 ≤ r2 then Except.error "InvalidLength"
        else from_dec_str_aux r2 cs

/-- `U256::from_dec_str`: parse a decimal string into a 256-bit value. -/
def from_dec_str (s : List Char) : Except String Nat :=
  from_dec_str_aux 0 s

/-- `U256::as_u64` of the `uint` crate (called at
src/src/hooks/use_ethereum.rs line 113): returns the value when it fits in
64 bits and panics otherwise. -/
def u256_as_u64 (n : Nat) : Except String Nat :=
  if n < 2 ^ 64 then Except.ok n
  else Except.error "Integer overflow when casting to u64"

/-- A label for each provider event stream that `connect()` spawns a
listener task for (src/src/hooks/use_ethereum.rs lines 41-93). -/
inductive Listener where
  | chainChanged
  | accountsChanged
  | connect
  | disconnect
deriving DecidableEq, Repr

/-- Result of a `connect()` call: the final state of the three cells, the
listener tasks spawned, and the returned `Result<(), String>`. -/
structure ConnectOutcome where
  state : UseEthereumHandle
  spawned : List Listener
  result : Except String Unit
deriving DecidableEq, Repr

/-- `UseEthereumHandle::connect` (src/src/hooks/use_ethereum.rs lines
29-96). The outcomes of the two RPCs performed — `eth_requestAccounts` and
`eth_chainId` — are inputs. On `Ok(addresses)` the handle sets
`connected := true`, `accounts := Some(addresses)`, stores the chain-id
RPC's outcome via `.ok()`, and spawns the four listener tasks; on `Err` it
does nothing. Either way it returns `Ok(())`. -/
def UseEthereumHandle.connect (s : UseEthereumHandle)
    (request_accounts : Except String (List Nat))
    (chain_id_rpc : Except String Nat) : ConnectOutcome :=
  match request_accounts with
  | Except.ok addresses =>
    { state := { s with
        connected := true
        accounts := some addresses
        chain_id := chain_id_rpc.toOption }
      spawned := [Listener.chainChanged, Listener.accountsChanged,
                  Listener.connect, Listener.disconnect]
      result := Except.ok () }
  | Except.error _ =>
    { state := s, spawned := [], result := Except.ok () }

/-- The closure installed on the `chainChanged` stream by `connect()`
(src/src/hooks/use_ethereum.rs lines 44-53), composed with
`on_chain_changed`'s conversion of the event value to a decimal string
(line 154): parse the decimal string back with `U256::from_dec_str` and
store the result; `none` models the `expect` panic on a parse failure. -/
def UseEthereumHandle.connect_chain_changed_handler (s : UseEthereumHandle)
    (event : Nat) : Option UseEthereumHandle :=
  match from_dec_str (u256_to_string event) with
  | Except.ok v => some { s with chain_id := some v }
  | Except.error _ => none

/-- The closure installed on the `accountsChanged` stream by `connect()`
(src/src/hooks/use_ethereum.rs lines 62-68): clear `connected` when the
new account list is empty, then store the list. -/
def UseEthereumHandle.connect_accounts_changed_handler
    (s : UseEthereumHandle) (addresses : List Nat) : UseEthereumHandle :=
  let s1 := if addresses.isEmpty then { s with connected := false } else s
  { s1 with accounts := some addresses }

/-- The closure installed on the `connect` stream by `connect()`
(src/src/hooks/use_ethereum.rs lines 76-79). -/
def UseEthereumHandle.connect_connect_handler
    (s : UseEthereumHandle) : UseEthereumHandle :=
  { s with connected := true }

/-- The closure installed on the `disconnect` stream by `connect()`
(src/src/hooks/use_ethereum.rs lines 87-90). -/
def UseEthereumHandle.connect_disconnect_handler
    (s : UseEthereumHandle) : UseEthereumHandle :=
  { s with connected := false }

/-- `UseEthereumHandle::disconnect` (src/src/hooks/use_ethereum.rs lines
98-101). -/
def UseEthereumHandle.disconnect (s : UseEthereumHandle) : UseEthereumHandle :=
  { s with connected := false }

/-- `UseEthereumHandle::address` (src/src/hooks/use_ethereum.rs lines
107-109): first account, if any. -/
def UseEthereumHandle.address (s : UseEthereumHandle) : Option Nat :=
  s.accounts.bind List.head?

/-- `UseEthereumHandle::chain_id` (src/src/hooks/use_ethereum.rs lines
111-114): map the stored `U256` through `U256::as_u64`; an `Except.error`
models the panic inside `as_u64`. -/
def UseEthereumHandle.chain_id_accessor
    (s : UseEthereumHandle) : Except String (Option Nat) :=
  match s.chain_id with
  | none => Except.ok none
  | some c =>
    match u256_as_u64 c with
    | Except.ok v => Except.ok (some v)
    | Except.error e => Except.error e

/-- A hexadecimal digit character, lowercase, as produced by the
`fixed-hash` crate's `Debug` for `H160`. -/
def hexDigitChar (d : Nat) : Char :=
  if d < 10 then Char.ofNat (48 + d) else Char.ofNat (87 + d)

/-- `format!("{:?}", h160)` (`fixed-hash` crate `Debug`): `0x` followed by
all forty hex digits, most significant first. -/
def h160Debug (a : Nat) : List Char :=
  '0' :: 'x' :: (List.range 40).map (fun i => hexDigitChar (a / 16 ^ (39 - i) % 16))

/-- `UseEthereumHandle::display_address` (src/src/hooks/use_ethereum.rs
lines 129-133): debug-format the first account, or the empty string. -/
def UseEthereumHandle.display_address (s : UseEthereumHandle) : List Char :=
  match s.address with
  | some a => h160Debug a
  | none => []

/-- Rendered HTML tree, as far as `AccountLabel` builds one. -/
inductive Html where
  | div (child : Html)
  | text (s : List Char)
deriving DecidableEq, Repr

/-- The `AccountLabel` function component
(src/src/components/account_label.rs lines 5-23). The outer `Option` is
the `use_context` result; its `None` (no surrounding context provider)
hits the `expect` panic, modelled as `Except.error`. -/
def accountLabelComponent
    (ctx : Option (Option UseEthereumHandle)) : Except String Html :=
  match ctx with
  | none => Except.error
      "no ethereum provider found. you must wrap your components in an <EthereumProvider/>"
  | some ethereum =>
    Except.ok (Html.div
      (match ethereum with
       | some e =>
         if e.connected then Html.text e.display_address
         else Html.text "Disconnected".toList
       | none => Html.text "No ethereum provider found".toList))

/-- A JSON value as built by the `json!` invocations in
src/src/hooks/use_ethereum.rs: a string or a serialized `ERC20Asset`. -/
inductive JVal where
  | jstr (s : String)
  | jasset (a : ERC20Asset)
deriving DecidableEq, Repr

/-- A JSON request parameter: an object with `JVal` values, or the serde
serialization of a `Chain`. -/
inductive Json where
  | obj (fields : List (String × JVal))
  | ofChain (c : Chain)
deriving DecidableEq, Repr

/-- One request handed to the EIP-1193 transport: method name and
parameter list. -/
structure RpcCall where
  method : String
  params : List Json
deriving DecidableEq, Repr

/-- The wallet's response behaviour: what the transport's `send` returns
for each request. -/
def RpcOracle : Type := RpcCall → Except String Json

/-- A `JsValue` as produced by this code: always built from a string
(`JsValue::from(chain_id)`, `JsValue::from("error ...")`). -/
inductive JsValue where
  | str (s : String)
deriving DecidableEq, Repr

/-- `UseEthereumHandle::request` (src/src/hooks/use_ethereum.rs lines
234-238): prepare the request and send it once over the transport.
Returns the issued request list together with the wallet's response. -/
def UseEthereumHandle.request (rpc : RpcOracle) (method : String)
    (params : List Json) : List RpcCall × Except String Json :=
  ([⟨method, params⟩], rpc ⟨method, params⟩)

/-- `UseEthereumHandle::switch_chain` (src/src/hooks/use_ethereum.rs lines
198-206): one `wallet_switchEthereumChain` request; success maps to
`JsValue::from(chain_id)`, any error to the constant string. -/
def UseEthereumHandle.switch_chain (rpc : RpcOracle)
    (chain_id : String) : List RpcCall × Except JsValue JsValue :=
  let r := UseEthereumHandle.request rpc "wallet_switchEthereumChain"
    [Json.obj [("chainId", JVal.jstr chain_id)]]
  (r.1, (r.2.map (fun _ => JsValue.str chain_id)).mapError
    (fun _ => JsValue.str "error deserializing request params"))

/-- `UseEthereumHandle::add_chain` (src/src/hooks/use_ethereum.rs lines
211-219): one `wallet_addEthereumChain` request; success maps to `()`,
any error to the constant string. -/
def UseEthereumHandle.add_chain (rpc : RpcOracle)
    (chain : Chain) : List RpcCall × Except JsValue Unit :=
  let r := UseEthereumHandle.request rpc "wallet_addEthereumChain"
    [Json.ofChain chain]
  (r.1, (r.2.map (fun _ => ())).mapError
    (fun _ => JsValue.str "error deserializing request params"))

/-- `UseEthereumHandle::watch_asset` (src/src/hooks/use_ethereum.rs lines
221-232): one `wallet_watchAsset` request; success maps to `()`, any
error to the constant string. -/
def UseEthereumHandle.watch_asset (rpc : RpcOracle)
    (asset : ERC20Asset) : List RpcCall × Except JsValue Unit :=
  let r := UseEthereumHandle.request rpc "wallet_watchAsset"
    [Json.obj [("r#type", JVal.jstr "ERC20"), ("options", JVal.jasset asset)]]
  (r.1, (r.2.map (fun _ => ())).mapError
    (fun _ => JsValue.str "error deserializing request params"))

/-- `UseEthereumHandle::switch_chain_with_fallback`
(src/src/hooks/use_ethereum.rs lines 185-189): call `add_chain` and
discard its result, then call `switch_chain` and propagate its error with
`?`, finally return `Ok(())`. -/
def UseEthereumHandle.switch_chain_with_fallback (rpc : RpcOracle)
    (chain : Chain) : List RpcCall × Except JsValue Unit :=
  let a := UseEthereumHandle.add_chain rpc chain
  let sw := UseEthereumHandle.switch_chain rpc chain.chain_id
  (a.1 ++ sw.1, sw.2.map (fun _ => ()))

/-- A decimal digit character is decoded by `from_dec_str`'s wrapping byte
arithmetic back to the digit it encodes. -/
theorem decDigitChar_val (d : Nat) (hd : d < 10) :
    ((decDigitChar d).toNat + 256 - 48) % 256 = d := by
  interval_cases d <;> decide

/-- `from_dec_str_aux` consumes a list of encoded digits (most significant
first), accumulating in base ten, as long as no step overflows 256 bits. -/
theorem from_dec_str_aux_ok (ds : List Nat) :
    ∀ acc : Nat, (∀ d ∈ ds, d < 10) →
      acc * 10 ^ ds.length + Nat.ofDigits 10 ds.reverse < 2 ^ 256 →
      from_dec_str_aux acc (ds.map decDigitChar)
        = Except.ok (acc * 10 ^ ds.length + Nat.ofDigits 10 ds.reverse) := by
  induction ds with
  | nil =>
    intro acc _ _
    simp [from_dec_str_aux, Nat.ofDigits_nil]
  | cons d ds ih =>
    intro acc hds hbound
    have hd : d < 10 := hds d (List.mem_cons_self d ds)
    have hval : acc * 10 ^ (d :: ds).length + Nat.ofDigits 10 (d :: ds).reverse
        = (acc * 10 + d) * 10 ^ ds.length + Nat.ofDigits 10 ds.reverse := by
      rw [List.reverse_cons, Nat.ofDigits_append, Nat.ofDigits_singleton,
        List.length_reverse, List.length_cons, pow_succ]
      ring
    have hpow : 1 ≤ 10 ^ ds.length := Nat.one_le_pow _ _ (by norm_num)
    have htot : (acc * 10 + d) * 10 ^ ds.length + Nat.ofDigits 10 ds.reverse
        < 2 ^ 256 := hval ▸ hbound
    have hstep : acc * 10 + d < 2 ^ 256 := by
      have h1 : acc * 10 + d ≤ (acc * 10 + d) * 10 ^ ds.length :=
        Nat.le_mul_of_pos_right _ hpow
      omega
    have hmul : acc * 10 < 2 ^ 256 := by omega
    simp only [List.map_cons, from_dec_str_aux]
    rw [decDigitChar_val d hd, if_neg (by omega : ¬ 9 < d),
      if_neg (Nat.not_le.mpr hmul), if_neg (Nat.not_le.mpr hstep), hval]
    exact ih (acc * 10 + d) (fun x hx => hds x (List.mem_cons_of_mem d hx)) htot

/-- C9: formatting a 256-bit chain id as a decimal string and parsing it
back with `U256::from_dec_str` is the identity, so the `chainChanged`
handler installed by `connect()` never hits its `expect` panic and stores
exactly the event's value. -/
theorem chain_changed_decimal_roundtrip (s : UseEthereumHandle) (c : Nat)
    (hc : c < 2 ^ 256) :
    from_dec_str (u256_to_string c) = Except.ok c
    ∧ s.connect_chain_changed_handler c = some { s with chain_id := some c } := by
  have hrt : from_dec_str (u256_to_string c) = Except.ok c := by
    by_cases h0 : c = 0
    · subst h0; decide
    · unfold u256_to_string from_dec_str
      rw [if_neg h0]
      have hmapped : ((Nat.digits 10 c).map decDigitChar).reverse
          = ((Nat.digits 10 c).reverse).map decDigitChar := by
        simp [List.map_reverse]
      have hdigits : ∀ d ∈ (Nat.digits 10 c).reverse, d < 10 := by
        intro d hmem
        exact Nat.digits_lt_base (by norm_num) (List.mem_reverse.mp hmem)
      have hbound : 0 * 10 ^ (Nat.digits 10 c).reverse.length
          + Nat.ofDigits 10 ((Nat.digits 10 c).reverse).reverse < 2 ^ 256 := by
        rw [List.reverse_reverse, Nat.ofDigits_digits]
        simpa using hc
      rw [hmapped, from_dec_str_aux_ok ((Nat.digits 10 c).reverse) 0 hdigits hbound,
        List.reverse_reverse, Nat.ofDigits_digits]
      simp
  refine ⟨hrt, ?_⟩
  unfold UseEthereumHandle.connect_chain_changed_handler
  rw [hrt]

/-- Witness for C9 at the concrete chain id `12345`. -/
theorem chain_changed_decimal_roundtrip_witness :
    from_dec_str (u256_to_string 12345) = Except.ok 12345
    ∧ (UseEthereumHandle.mk ⟨0⟩ true none none).connect_chain_changed_handler 12345
        = some (UseEthereumHandle.mk ⟨0⟩ true none (some 12345)) := by
  have h := chain_changed_decimal_roundtrip (UseEthereumHandle.mk ⟨0⟩ true none none)
    12345 (by norm_num)
  exact ⟨h.1, h.2⟩

/-- C1: when `eth_requestAccounts` succeeds with address list `A`,
`connect()` sets `connected` to `true`, sets `accounts` to `Some(A)`, sets
`chain_id` to `Some(c)` when the chain-id RPC returns `c` and to `None`
when it errors, and spawns exactly the four listener tasks, one per
provider event stream, in source order. -/
theorem connect_success_sets_state_and_spawns_four :
    ∀ (s : UseEthereumHandle) (A : List Nat) (ci : Except String Nat),
      (s.connect (Except.ok A) ci).state.connected = true
      ∧ (s.connect (Except.ok A) ci).state.accounts = some A
      ∧ (∀ c : Nat, (s.connect (Except.ok A) (Except.ok c)).state.chain_id = some c)
      ∧ (∀ e : String, (s.connect (Except.ok A) (Except.error e)).state.chain_id = none)
      ∧ (s.connect (Except.ok A) ci).spawned =
          [Listener.chainChanged, Listener.accountsChanged,
           Listener.connect, Listener.disconnect] := by
  intro s A ci
  exact ⟨rfl, rfl, fun _ => rfl, fun _ => rfl, rfl⟩

/-- C2: `connect()` always returns `Ok(())`, and when `eth_requestAccounts`
fails it leaves all three state cells unchanged and spawns no listener
task. -/
theorem connect_failure_is_noop_and_never_errs :
    ∀ (s : UseEthereumHandle) (ra : Except String (List Nat))
      (ci : Except String Nat),
      (s.connect ra ci).result = Except.ok ()
      ∧ (∀ e : String, ra = Except.error e →
          (s.connect ra ci).state = s ∧ (s.connect ra ci).spawned = []) := by
  intro s ra ci
  refine ⟨?_, ?_⟩
  · cases ra <;> rfl
  · intro e he
    subst he
    exact ⟨rfl, rfl⟩

/-- Witness for C2 at a concrete failing `eth_requestAccounts` outcome. -/
theorem connect_failure_is_noop_and_never_errs_witness :
    (UseEthereumHandle.connect ⟨⟨0⟩, false, none, none⟩
        (Except.error "user rejected") (Except.ok 1)).state = ⟨⟨0⟩, false, none, none⟩
    ∧ (UseEthereumHandle.connect ⟨⟨0⟩, false, none, none⟩
        (Except.error "user rejected") (Except.ok 1)).spawned = [] := by
  exact (connect_failure_is_noop_and_never_errs ⟨⟨0⟩, false, none, none⟩
    (Except.error "user rejected") (Except.ok 1)).2 "user rejected" rfl

/-- C4: the `accountsChanged` handler always stores `Some(addresses)`,
clears `connected` exactly when the list is empty, leaves `connected`
unchanged otherwise, and touches nothing else. -/
theorem accounts_changed_handler_spec :
    ∀ (s : UseEthereumHandle) (A : List Nat),
      (s.connect_accounts_changed_handler A).accounts = some A
      ∧ (s.connect_accounts_changed_handler A).connected
          = (if A.isEmpty then false else s.connected)
      ∧ (s.connect_accounts_changed_handler A).chain_id = s.chain_id
      ∧ (s.connect_accounts_changed_handler A).provider = s.provider := by
  intro s A
  cases A <;>
    simp [UseEthereumHandle.connect_accounts_changed_handler]

/-- C5 counterexample: the handle does not comprise four boolean/optional
fields — filtering its declared field list for boolean/optional types
yields three fields, not four (the fourth field is the provider object). -/
theorem handle_state_not_four_bool_optional_fields :
    ¬ (useEthereumHandleFields.filter (fun f => f.2.isBoolOrOptional)).length = 4 := by
  decide

/-- C5 amended: the wallet session state of `UseEthereumHandle` comprises
three independent boolean/optional fields — `connected`, `accounts`,
`chain_id` — alongside a provider object field, and each provider callback
updates only those three cells, never the provider. -/
theorem handle_state_three_bool_optional_fields :
    (useEthereumHandleFields.filter (fun f => f.2.isBoolOrOptional)).map Prod.fst
        = ["connected", "accounts", "chain_id"]
    ∧ (useEthereumHandleFields.filter (fun f => f.2.isBoolOrOptional)).length = 3
    ∧ (∀ (s : UseEthereumHandle) (A : List Nat),
        (s.connect_accounts_changed_handler A).provider = s.provider)
    ∧ (∀ (s : UseEthereumHandle) (c : Nat),
        (s.connect_chain_changed_handler c).elim True
          (fun h => h.provider = s.provider ∧ h.connected = s.connected
            ∧ h.accounts = s.accounts))
    ∧ (∀ s : UseEthereumHandle,
        (s.connect_connect_handler).provider = s.provider
        ∧ (s.connect_connect_handler).accounts = s.accounts
        ∧ (s.connect_connect_handler).chain_id = s.chain_id)
    ∧ (∀ s : UseEthereumHandle,
        (s.connect_disconnect_handler).provider = s.provider
        ∧ (s.connect_disconnect_handler).accounts = s.accounts
        ∧ (s.connect_disconnect_handler).chain_id = s.chain_id) := by
  refine ⟨by decide, by decide, fun s A => ?_, fun s c => ?_,
    fun s => ⟨rfl, rfl, rfl⟩, fun s => ⟨rfl, rfl, rfl⟩⟩
  · cases A <;> simp [UseEthereumHandle.connect_accounts_changed_handler]
  · unfold UseEthereumHandle.connect_chain_changed_handler
    cases from_dec_str (u256_to_string c) <;> simp

/-- C10: `disconnect()` clears the `connected` flag and changes nothing
else; in particular the handle can be disconnected while `accounts` still
holds a non-empty address list. -/
theorem disconnect_clears_only_connected :
    (∀ s : UseEthereumHandle,
      s.disconnect.connected = false
      ∧ s.disconnect.accounts = s.accounts
      ∧ s.disconnect.chain_id = s.chain_id
      ∧ s.disconnect.provider = s.provider)
    ∧ (∃ s : UseEthereumHandle, s.disconnect.connected = false
        ∧ ∃ (a : Nat) (rest : List Nat), s.disconnect.accounts = some (a :: rest)) :=
  ⟨fun _ => ⟨rfl, rfl, rfl, rfl⟩, ⟨⟨⟨0⟩, true, some [1], none⟩, rfl, 1, [], rfl⟩⟩

/-- C7: `AccountLabel` renders a pure function of the context value: the
handle's `display_address()` when connected, `"Disconnected"` when a
handle is present but not connected, and `"No ethereum provider found"`
when the context holds no handle. -/
theorem account_label_is_pure_view_of_context :
    (∀ e : UseEthereumHandle,
      accountLabelComponent (some (some e)) =
        Except.ok (Html.div (Html.text
          (if e.connected then e.display_address else "Disconnected".toList))))
    ∧ accountLabelComponent (some none) =
        Except.ok (Html.div (Html.text "No ethereum provider found".toList)) := by
  refine ⟨fun e => ?_, rfl⟩
  cases h : e.connected <;> simp [accountLabelComponent, h]

/-- C3: `switch_chain_with_fallback` issues the `wallet_addEthereumChain`
request first and the `wallet_switchEthereumChain` request second, and
returns `Ok(())` exactly when the switch request succeeds, whatever the
wallet answered to the add request. -/
theorem switch_chain_with_fallback_order_and_result :
    ∀ (rpc : RpcOracle) (chain : Chain),
      (UseEthereumHandle.switch_chain_with_fallback rpc chain).1 =
        [⟨"wallet_addEthereumChain", [Json.ofChain chain]⟩,
         ⟨"wallet_switchEthereumChain",
          [Json.obj [("chainId", JVal.jstr chain.chain_id)]]⟩]
      ∧ ((UseEthereumHandle.switch_chain_with_fallback rpc chain).2 = Except.ok ()
          ↔ (rpc ⟨"wallet_switchEthereumChain",
              [Json.obj [("chainId", JVal.jstr chain.chain_id)]]⟩).isOk = true) := by
  intro rpc chain
  refine ⟨rfl, ?_⟩
  unfold UseEthereumHandle.switch_chain_with_fallback
    UseEthereumHandle.switch_chain UseEthereumHandle.add_chain
    UseEthereumHandle.request
  cases h : rpc ⟨"wallet_switchEthereumChain",
      [Json.obj [("chainId", JVal.jstr chain.chain_id)]]⟩ <;>
    simp [h, Except.mapError, Except.map, Except.isOk, Except.toBool]

/-- C6: each of `switch_chain`, `add_chain` and `watch_asset` issues
exactly one request through `UseEthereumHandle::request`, and whenever
that request fails — for any error value — the helper returns `Err` of the
same constant string `"error deserializing request params"`. -/
theorem rpc_helpers_one_request_constant_error :
    ∀ (rpc : RpcOracle) (cid : String) (chain : Chain) (asset : ERC20Asset),
      (UseEthereumHandle.switch_chain rpc cid).1.length = 1
      ∧ (UseEthereumHandle.add_chain rpc chain).1.length = 1
      ∧ (UseEthereumHandle.watch_asset rpc asset).1.length = 1
      ∧ (∀ e : String,
          rpc ⟨"wallet_switchEthereumChain", [Json.obj [("chainId", JVal.jstr cid)]]⟩
            = Except.error e →
          (UseEthereumHandle.switch_chain rpc cid).2
            = Except.error (JsValue.str "error deserializing request params"))
      ∧ (∀ e : String,
          rpc ⟨"wallet_addEthereumChain", [Json.ofChain chain]⟩ = Except.error e →
          (UseEthereumHandle.add_chain rpc chain).2
            = Except.error (JsValue.str "error deserializing request params"))
      ∧ (∀ e : String,
          rpc ⟨"wallet_watchAsset",
            [Json.obj [("r#type", JVal.jstr "ERC20"), ("options", JVal.jasset asset)]]⟩
            = Except.error e →
          (UseEthereumHandle.watch_asset rpc asset).2
            = Except.error (JsValue.str "error deserializing request params")) := by
  intro rpc cid chain asset
  refine ⟨rfl, rfl, rfl, fun e he => ?_, fun e he => ?_, fun e he => ?_⟩ <;>
    simp [UseEthereumHandle.switch_chain, UseEthereumHandle.add_chain,
      UseEthereumHandle.watch_asset, UseEthereumHandle.request, he,
      Except.mapError, Except.map]

/-- Witness for C6 at a concrete always-failing wallet. -/
theorem rpc_helpers_one_request_constant_error_witness :
    (UseEthereumHandle.switch_chain (fun _ => Except.error "boom") "0x1").2
      = Except.error (JsValue.str "error deserializing request params")
    ∧ (UseEthereumHandle.add_chain (fun _ => Except.error "boom")
        ⟨"0x1", "Mainnet", ""⟩).2
      = Except.error (JsValue.str "error deserializing request params")
    ∧ (UseEthereumHandle.watch_asset (fun _ => Except.error "boom") ⟨"USDC"⟩).2
      = Except.error (JsValue.str "error deserializing request params") := by
  have h := rpc_helpers_one_request_constant_error (fun _ => Except.error "boom")
    "0x1" ⟨"0x1", "Mainnet", ""⟩ ⟨"USDC"⟩
  exact ⟨h.2.2.2.1 "boom" rfl, h.2.2.2.2.1 "boom" rfl, h.2.2.2.2.2 "boom" rfl⟩

/-- C8: the `chain_id()` accessor returns `Ok none` exactly when no chain
id is stored; a stored value of at least `2 ^ 64` makes `U256::as_u64`
panic instead of yielding `None`; a stored value below `2 ^ 64` is
returned unchanged. -/
theorem chain_id_accessor_not_total :
    ∀ s : UseEthereumHandle,
      (s.chain_id_accessor = Except.ok none ↔ s.chain_id = none)
      ∧ (∀ c : Nat, s.chain_id = some c → 2 ^ 64 ≤ c →
          s.chain_id_accessor
            = Except.error "Integer overflow when casting to u64")
      ∧ (∀ c : Nat, s.chain_id = some c → c < 2 ^ 64 →
          s.chain_id_accessor = Except.ok (some c)) := by
  intro s
  refine ⟨?_, fun c hc hbig => ?_, fun c hc hsmall => ?_⟩
  · cases h : s.chain_id with
    | none => simp [UseEthereumHandle.chain_id_accessor, h]
    | some c =>
      simp only [UseEthereumHandle.chain_id_accessor, h, u256_as_u64]
      by_cases hlt : c < 2 ^ 64
      · rw [if_pos hlt]; simp
      · rw [if_neg hlt]; simp
  · simp only [UseEthereumHandle.chain_id_accessor, hc, u256_as_u64]
    rw [if_neg (Nat.not_lt.mpr hbig)]
  · simp only [UseEthereumHandle.chain_id_accessor, hc, u256_as_u64]
    rw [if_pos hsmall]

/-- Witness for C8: stored `2 ^ 64` panics, stored `5` is returned, empty
cell gives `None`. -/
theorem chain_id_accessor_not_total_witness :
    (UseEthereumHandle.mk ⟨0⟩ true none (some (2 ^ 64))).chain_id_accessor
      = Except.error "Integer overflow when casting to u64"
    ∧ (UseEthereumHandle.mk ⟨0⟩ true none (some 5)).chain_id_accessor
      = Except.ok (some 5)
    ∧ (UseEthereumHandle.mk ⟨0⟩ true none none).chain_id_accessor
      = Except.ok none := by
  refine ⟨?_, ?_, ?_⟩
  · exact (chain_id_accessor_not_total
      (UseEthereumHandle.mk ⟨0⟩ true none (some (2 ^ 64)))).2.1 (2 ^ 64) rfl
      (Nat.le_refl _)
  · exact (chain_id_accessor_not_total
      (UseEthereumHandle.mk ⟨0⟩ true none (some 5))).2.2 5 rfl (by norm_num)
  · exact (chain_id_accessor_not_total
      (UseEthereumHandle.mk ⟨0⟩ true none none)).1.mpr rfl
